import Mathlib

/-!
# Verification of the zap-baseline alert classification & policy engine

Shallow embedding of `src/zap-baseline.py` (the ZAP baseline scan driver).
The embedding covers the decision logic of `main`: config and progress
loading, the per-rule classification into PASS / IGNORE / INFO / WARN /
FAIL buckets, the count bookkeeping, template generation, the exception
handling around the scan phase, and the exit-code (verdict) derivation.

`zap-baseline.py` imports `load_config`, `print_rules`, the
`inc_*_rules` inclusion predicates and `zap_conf_lvls` from the external
module `zap_common`, which is not part of this repository's sources.
Those definitions are modelled from the specification (they carry a
`Modelled from the spec:` doc comment); everything else is translated
directly from `src/zap-baseline.py`.

Python dictionaries are modelled as association lists with in-place
update (Python 3.7+ dict semantics: insertion order preserved, updates
keep the original position).  Strings are compared and sorted through
their character lists, matching Python's code-point string ordering.
-/

namespace ZapBaseline

/-! ## Python dictionary model -/

/-- Dictionary read: `d[k]` / `d.get(k)`. -/
def dlookup {α : Type} (k : String) : List (String × α) → Option α
  | [] => none
  | (k', v) :: t => if k' = k then some v else dlookup k t

/-- Dictionary write `d[k] = v`: replaces the value in place when the key is
already present, otherwise appends the new binding at the end (Python 3.7+
dict semantics). -/
def dinsert {α : Type} (k : String) (v : α) : List (String × α) → List (String × α)
  | [] => [(k, v)]
  | (k', v') :: t => if k' = k then (k', v) :: t else (k', v') :: dinsert k v t

/-- The key list of a dictionary (`d.keys()`). -/
def dkeys {α : Type} (m : List (String × α)) : List String := m.map Prod.fst

/-- Building a dictionary by a guarded insertion loop over a list
(the shape of every dict-building `for` loop in `main`):
for each element `b` of the list, if `cond b` holds, insert
`keyf b ↦ valf b`. -/
def dictOfAux {α β : Type} (cond : β → Bool) (keyf : β → String) (valf : β → α) :
    List (String × α) → List β → List (String × α)
  | m, [] => m
  | m, b :: t => dictOfAux cond keyf valf (if cond b then dinsert (keyf b) (valf b) m else m) t

/-- `dictOf cond keyf valf l` starts the insertion loop from the empty dict. -/
def dictOf {α β : Type} (cond : β → Bool) (keyf : β → String) (valf : β → α)
    (l : List β) : List (String × α) :=
  dictOfAux cond keyf valf [] l

/-! ## Character-level string utilities

Python string operations (`split('\t')`, `startswith('#')`, string
ordering used by `sorted`) are modelled on the character list of the
string so that every definition evaluates inside the kernel. -/

/-- Split a character list at every tab, like Python's `s.split('\t')`. -/
def splitTabs : List Char → List (List Char)
  | [] => [[]]
  | c :: t =>
    if c = '\t' then [] :: splitTabs t
    else
      match splitTabs t with
      | [] => [[c]]
      | h :: r => (c :: h) :: r

/-- The tab-separated fields of a line (Python `line.split('\t')`). -/
def tabFields (s : String) : List String := (splitTabs s.data).map (fun l => ⟨l⟩)

/-- Join fields back with tabs (the tail of a `split` re-assembled:
Python's `split('\t', 1)` keeps later tabs inside the message field). -/
def tabJoin : List String → String
  | [] => ""
  | [s] => s
  | s :: t => ⟨s.data ++ '\t' :: (tabJoin t).data⟩

/-- Python string ordering (`sorted` on `str`): lexicographic on the
code points. -/
def strLE (a b : String) : Prop := a.data ≤ b.data

instance : DecidableRel strLE := fun a b => by
  unfold strLE; infer_instance

instance : IsTotal String strLE := ⟨fun a b => le_total a.data b.data⟩

instance : IsTrans String strLE := ⟨fun _ _ _ h1 h2 => le_trans h1 h2⟩

/-- Ordering of dictionary items by key, as Python's
`sorted(d.items())` orders them when keys are unique. -/
def pairLE {α : Type} (a b : String × α) : Prop := a.1.data ≤ b.1.data

instance {α : Type} : DecidableRel (pairLE (α := α)) := fun a b => by
  unfold pairLE; infer_instance

instance {α : Type} : IsTotal (String × α) pairLE := ⟨fun a b => le_total a.1.data b.1.data⟩

instance {α : Type} : IsTrans (String × α) pairLE := ⟨fun _ _ _ h1 h2 => le_trans h1 h2⟩

/-- `sorted(alert_dict.items())`'s key order, on bare key lists. -/
def sortKeys (l : List String) : List String := List.insertionSort strLE l

/-! ## Fixed data of `zap-baseline.py` -/

/-- Pscan rules that aren't really relevant, eg the example rules in the
alpha set (src/zap-baseline.py line 69). -/
def blacklist : List String := ["-1", "50003", "60000", "60001"]

/-- Modelled from the spec: the ordered verbosity levels for the `-l`
option (§6, "Verbosity levels (ordered …): PASS, IGNORE, INFO, WARN,
FAIL").  `zap_conf_lvls` itself lives in `zap_common`, which is not part
of this repository's sources. -/
def zap_conf_lvls : List String := ["PASS", "IGNORE", "INFO", "WARN", "FAIL"]

/-- `zap_conf_lvls.index(level)` (Python `list.index`). -/
def lvlIndex (level : String) : Nat := zap_conf_lvls.indexOf level

/-- The four dispositions a config record may assign to a rule
(§3 DispositionOverride). -/
inductive Dispo where
  | IGNORE
  | INFO
  | WARN
  | FAIL
deriving DecidableEq

/-- The disposition keyword as it appears in config files and output. -/
def Dispo.keyword : Dispo → String
  | .IGNORE => "IGNORE"
  | .INFO => "INFO"
  | .WARN => "WARN"
  | .FAIL => "FAIL"

/-- Modelled from the spec: the case-sensitive disposition keywords
accepted by the config loader (§4.1); any other token is rejected. -/
def parseDispo (tok : String) : Option Dispo :=
  if tok = "IGNORE" then some .IGNORE
  else if tok = "INFO" then some .INFO
  else if tok = "WARN" then some .WARN
  else if tok = "FAIL" then some .FAIL
  else none

/-! ## Config loader (`load_config` of `zap_common`, modelled from the spec) -/

/-- Modelled from the spec: the designated scope marker that makes a
record a ScopeExclusion instead of a disposition override (§4.1).  The
spec does not fix the concrete token; its value is irrelevant to every
claim below. -/
def scopeMarker : String := "OUTOFSCOPE"

/-- One parsed config record: either a disposition override
`rule_id ↦ (disposition, optional message)` or a scope exclusion
`rule_id ↦ url pattern` (§3). -/
inductive ConfigRecord where
  | dispoRec (rule_id : String) (d : Dispo) (msg : Option String)
  | scopeRec (rule_id : String) (pattern : String)
deriving DecidableEq

/-- Modelled from the spec: parsing of a single config line (§4.1).
A line is blank, a `#` comment, or a tab-separated record; a record
whose first field begins with the scope marker is a ScopeExclusion;
otherwise the second field must be one of the case-sensitive keywords
IGNORE/INFO/WARN/FAIL, and any other token is a `ConfigFormatError`
naming the offending line and value (raised as `ValueError` in Python). -/
def parseConfigLine (line : String) : Except String (Option ConfigRecord) :=
  if line = "" then .ok none
  else if line.data.head? = some '#' then .ok none
  else
    match tabFields line with
    | [] => .ok none
    | [_] => .error ("Missing disposition field in config record: " ++ line)
    | rule_id :: tok :: rest =>
      if scopeMarker.data.isPrefixOf rule_id.data then
        .ok (some (.scopeRec tok (tabJoin rest)))
      else
        match parseDispo tok with
        | some d =>
          .ok (some (.dispoRec rule_id d (match rest with | [] => none | _ => some (tabJoin rest))))
        | none => .error ("Unexpected disposition in config record: " ++ line ++ " value: " ++ tok)

/-- The three maps `load_config` populates in one pass
(`config_dict`, `config_msg`, `out_of_scope_dict`,
src/zap-baseline.py lines 63-65). -/
structure ConfigMaps where
  config_dict : List (String × Dispo)
  config_msg : List (String × String)
  out_of_scope_dict : List (String × String)
deriving DecidableEq

/-- The maps before any config file is loaded (src lines 63-65). -/
def emptyMaps : ConfigMaps := ⟨[], [], []⟩

/-- Applying one parsed record to the three maps. -/
def applyRecord (m : ConfigMaps) : ConfigRecord → ConfigMaps
  | .dispoRec rid d msg? =>
    { m with
      config_dict := dinsert rid d m.config_dict
      config_msg :=
        match msg? with
        | some s => dinsert rid s m.config_msg
        | none => m.config_msg }
  | .scopeRec rid pat => { m with out_of_scope_dict := m.out_of_scope_dict ++ [(rid, pat)] }

/-- The line-by-line loading loop; the first malformed line aborts the
whole load with its error. -/
def loadConfigFrom (m : ConfigMaps) : List String → Except String ConfigMaps
  | [] => .ok m
  | line :: rest =>
    match parseConfigLine line with
    | .error e => .error e
    | .ok none => loadConfigFrom m rest
    | .ok (some r) => loadConfigFrom (applyRecord m r) rest

/-- Modelled from the spec: `load_config` (§4.1), a single pass over the
config lines producing the disposition map, the message map and the
scope-exclusion map, or a `ConfigFormatError`. -/
def load_config (lines : List String) : Except String ConfigMaps :=
  loadConfigFrom emptyMaps lines

/-! ## Progress loader (src/zap-baseline.py lines 280-288) -/

/-- One entry of the progress document's `issues` list: an id, a state
and the remaining metadata fields (§3 ProgressEntry). -/
structure Issue where
  id : String
  state : String
  details : List (String × String)
deriving DecidableEq

/-- The parsing loop of src lines 286-288: `in_progress_issues` maps each
issue id to the full issue record, keeping exactly the issues whose
`state` equals `"inprogress"`. -/
def load_progress (issues : List Issue) : List (String × Issue) :=
  dictOf (fun i => decide (i.state = "inprogress")) Issue.id (fun i => i) issues

/-- The progress document: `issues = none` models a JSON document whose
top-level `"issues"` key is absent (reading it raises `KeyError` in
Python). -/
structure ProgressDoc where
  issues : Option (List Issue)
deriving DecidableEq

/-! ## Catalog dictionaries (src/zap-baseline.py lines 471-477, 490-502) -/

/-- `all_dict` (src lines 472-477): every catalog rule `id ↦ name`,
skipping blacklisted ids. -/
def all_dict (all_rules : List (String × String)) : List (String × String) :=
  dictOf (fun r => !decide (r.1 ∈ blacklist)) Prod.fst Prod.snd all_rules

/-- `pass_dict` (src lines 490-496): every catalog rule that is not
blacklisted and has no surviving alert entry. -/
def pass_dict (all_rules : List (String × String)) (alertKeys : List String) :
    List (String × String) :=
  dictOf (fun r => !decide (r.1 ∈ blacklist) && !decide (r.1 ∈ alertKeys)) Prod.fst Prod.snd
    all_rules

/-! ## Inclusion predicates and classification
(`inc_*_rules` and `print_rules` of `zap_common`, modelled from the spec §4.5) -/

/-- Modelled from the spec: §4.5 step 2a — an explicit IGNORE override
puts the fired rule in the IGNORE bucket; nothing else does (the
`include_rule` flag plays no role for IGNORE). -/
def inc_ignore_rules (config_dict : List (String × Dispo)) (key : String)
    (include_rule : Bool) : Bool :=
  let _ := include_rule
  decide (dlookup key config_dict = some Dispo.IGNORE)

/-- Modelled from the spec: §4.5 steps 2a/2b — an explicit INFO override
puts the fired rule in the INFO bucket, and a rule with no override is
included when the caller's `include_rule` flag (set by `main` from the
`-i` mode) is on. -/
def inc_info_rules (config_dict : List (String × Dispo)) (key : String)
    (include_rule : Bool) : Bool :=
  decide (dlookup key config_dict = some Dispo.INFO) ||
    (decide (dlookup key config_dict = none) && include_rule)

/-- Modelled from the spec: §4.5 steps 2a/2c — an explicit WARN override
puts the fired rule in the WARN bucket, and a rule with no override is
included when the caller's `include_rule` flag (set by `main` to the
negation of the `-i` mode) is on. -/
def inc_warn_rules (config_dict : List (String × Dispo)) (key : String)
    (include_rule : Bool) : Bool :=
  decide (dlookup key config_dict = some Dispo.WARN) ||
    (decide (dlookup key config_dict = none) && include_rule)

/-- Modelled from the spec: §4.5 step 2a — only an explicit FAIL override
puts a fired rule in the FAIL bucket. -/
def inc_fail_rules (config_dict : List (String × Dispo)) (key : String)
    (include_rule : Bool) : Bool :=
  let _ := include_rule
  decide (dlookup key config_dict = some Dispo.FAIL)

/-- Modelled from the spec: the three-step precedence chain of §4.5
step 2 — an explicit override always wins; otherwise INFO when the
"unspecified rules default to INFO" mode (`-i`) is active; otherwise
WARN. -/
def resolve_disposition (config_dict : List (String × Dispo)) (info_unspecified : Bool)
    (key : String) : Dispo :=
  match dlookup key config_dict with
  | some d => d
  | none => if info_unspecified then .INFO else .WARN

/-- One printed result line: disposition keyword, rule id, and the
override's message when present (§4.5 step 4; URLs are not part of the
alert model here). -/
def fmtLine (level key msg : String) : String :=
  level ++ ": [" ++ key ++ "]" ++ (if msg = "" then "" else " " ++ msg)

/-- Modelled from the spec: `print_rules` (§4.5 steps 3-5).  Walks the
fired rules (`alert_dict` keys, in Python's sorted order), keeps those
the inclusion predicate admits, prints one line each when the configured
minimum display level does not exceed this bucket's level — the minimum
level never affects the returned counts — and returns the number of
included rules that are not in progress together with the number that
are (§4.5: "two integers: total count and in-progress count"; the first
component is the `…-NEW` count that excludes in-progress rules, matching
the `FAIL-NEW`/`FAIL-INPROG` labels printed by src line 536). -/
def print_rules (alert_dict : List String) (level : String)
    (config_dict : List (String × Dispo)) (config_msg : List (String × String))
    (min_level : Nat) (inc_rule : List (String × Dispo) → String → Bool → Bool)
    (include_rule : Bool) (detailed_output : Bool)
    (in_progress_issues : List (String × Issue)) : List String × Nat × Nat :=
  let _ := detailed_output
  let included := (sortKeys alert_dict).filter (fun k => inc_rule config_dict k include_rule)
  let out :=
    if min_level ≤ lvlIndex level then
      included.map (fun k => fmtLine level k ((dlookup k config_msg).getD ""))
    else []
  (out,
   (included.filter (fun k => !decide (k ∈ dkeys in_progress_issues))).length,
   (included.filter (fun k => decide (k ∈ dkeys in_progress_issues))).length)

/-- The classification outcome of one run: the printed lines and the
seven counters `main` accumulates (src lines 151-157, 490-518). -/
structure ClassifyOut where
  output : List String
  pass_count : Nat
  ignore_count : Nat
  info_count : Nat
  warn_count : Nat
  fail_count : Nat
  warn_inprog_count : Nat
  fail_inprog_count : Nat
deriving DecidableEq

/-- The classification phase of `main` (src lines 490-518): the PASS
block over `pass_dict`, then the four `print_rules` calls with exactly
the flags `main` passes — IGNORE with `True` and an empty progress map,
INFO with `info_unspecified`, WARN with `not info_unspecified`, FAIL
with `True`; the IGNORE and INFO in-progress components are discarded
(`not_used`). -/
def classify (all_rules : List (String × String)) (alertKeys : List String)
    (config_dict : List (String × Dispo)) (config_msg : List (String × String))
    (min_level : Nat) (info_unspecified : Bool) (detailed_output : Bool)
    (in_progress_issues : List (String × Issue)) : ClassifyOut :=
  let pd := pass_dict all_rules alertKeys
  let passOut :=
    if min_level = lvlIndex "PASS" ∧ detailed_output = true then
      (List.insertionSort pairLE pd).map (fun r => "PASS: " ++ r.2 ++ " [" ++ r.1 ++ "]")
    else []
  let rI := print_rules alertKeys "IGNORE" config_dict config_msg min_level
    inc_ignore_rules true detailed_output []
  let rN := print_rules alertKeys "INFO" config_dict config_msg min_level
    inc_info_rules info_unspecified detailed_output in_progress_issues
  let rW := print_rules alertKeys "WARN" config_dict config_msg min_level
    inc_warn_rules (!info_unspecified) detailed_output in_progress_issues
  let rF := print_rules alertKeys "FAIL" config_dict config_msg min_level
    inc_fail_rules true detailed_output in_progress_issues
  { output := passOut ++ rI.1 ++ rN.1 ++ rW.1 ++ rF.1
    pass_count := pd.length
    ignore_count := rI.2.1
    info_count := rN.2.1
    warn_count := rW.2.1
    fail_count := rF.2.1
    warn_inprog_count := rW.2.2
    fail_inprog_count := rF.2.2 }

/-! ## Template generation (src/zap-baseline.py lines 479-487) -/

/-- The four comment lines written at the top of a generated config file
(src lines 482-485). -/
def gen_header : List String :=
  ["# zap-baseline rule configuration file",
   "# Change WARN to IGNORE to ignore rule or FAIL to fail if rule matches",
   "# Only the rule identifiers are used - the names are just for info",
   "# You can add your own messages to each rule by appending them after a tab on each line.",]

/-- The record lines of the generated template (src lines 486-487):
`key + '\tWARN\t(' + rule + ')'` for every item of `all_dict`, in
Python's `sorted(all_dict.items())` order. -/
def gen_records (all_rules : List (String × String)) : List String :=
  (List.insertionSort pairLE (all_dict all_rules)).map
    (fun r => r.1 ++ "\tWARN\t(" ++ r.2 ++ ")")

/-- The complete generated config file, as its list of lines. -/
def gen_file (all_rules : List (String × String)) : List String :=
  gen_header ++ gen_records all_rules

/-! ## Verdict derivation and the end-to-end control flow of `main` -/

/-- The verdict logic of src lines 561-568: exit 1 on any FAIL, else 2 on
any WARN, else 0 on any PASS, else 3. -/
def exitCode (fail_count warn_count pass_count : Nat) : Nat :=
  if fail_count > 0 then 1
  else if warn_count > 0 then 2
  else if pass_count > 0 then 0
  else 3

/-- The seven counters of `main`, all initialised to zero
(src lines 151-157). -/
structure Counters where
  pass_count : Nat
  ignore_count : Nat
  info_count : Nat
  warn_count : Nat
  fail_count : Nat
  warn_inprog_count : Nat
  fail_inprog_count : Nat
deriving DecidableEq

/-- All counters zero, the state at the top of `main`. -/
def Counters.zero : Counters := ⟨0, 0, 0, 0, 0, 0, 0⟩

/-- The five counter-assignment statements of the scan-and-classify
phase, in source order: pass (line 502), ignore (505), info (509), warn
(513, together with its in-progress counter), fail (517, likewise). -/
def stepAssign (cl : ClassifyOut) (i : Nat) (c : Counters) : Counters :=
  match i with
  | 0 => { c with pass_count := cl.pass_count }
  | 1 => { c with ignore_count := cl.ignore_count }
  | 2 => { c with info_count := cl.info_count }
  | 3 => { c with warn_count := cl.warn_count, warn_inprog_count := cl.warn_inprog_count }
  | 4 => { c with fail_count := cl.fail_count, fail_inprog_count := cl.fail_inprog_count }
  | _ => c

/-- The counters after the first `k` assignment statements have run
(an exception inside the `try` block leaves exactly such a prefix). -/
def countsUpTo (cl : ClassifyOut) : Nat → Counters
  | 0 => Counters.zero
  | k + 1 => stepAssign cl k (countsUpTo cl k)

/-- How the `try` block of src lines 336-556 ends: normally, or with an
exception (`IOError` or any other) raised after `k` of the five counter
assignments have run.  Both handlers swallow the exception. -/
inductive TryOutcome where
  | ok : TryOutcome
  | raised : Bool → Nat → TryOutcome
deriving DecidableEq

/-- The number of counter assignments that completed. -/
def stepsOf : TryOutcome → Nat
  | .ok => 5
  | .raised _ k => k

/-- The counters `main` holds when it reaches the verdict step: all zero
when no URL was reachable (src line 463: the whole classification block
is skipped), otherwise the prefix of assignments the try outcome
allowed. -/
def scanCounters (cl : ClassifyOut) (num_urls : Nat) (oc : TryOutcome) : Counters :=
  if num_urls = 0 then Counters.zero else countsUpTo cl (stepsOf oc)

/-- Everything that determines a run of `main` after argument parsing:
the config source, the progress document, the scanner's rule catalog and
fired alerts, the option flags, the number of reachable URLs and the way
the `try` block ends. -/
structure MainInput where
  config_lines : Option (List String)
  progress_doc : Option ProgressDoc
  all_rules : List (String × String)
  alertKeys : List String
  min_level : Nat
  info_unspecified : Bool
  detailed_output : Bool
  num_urls : Nat
  outcome : TryOutcome
deriving DecidableEq

/-- How the process terminates: `exited code` for `sys.exit(code)`,
`crashed` for an exception that escapes `main` uncaught (the Python
interpreter then terminates with a traceback, not through the verdict
logic). -/
inductive RunResult where
  | exited : Nat → RunResult
  | crashed : RunResult
deriving DecidableEq

/-- The tail of `main` from the scan phase on: classify, take whatever
counters the try outcome left, and exit through the verdict logic of
src lines 561-568. -/
def runVerdict (inp : MainInput) (maps : ConfigMaps) (inprog : List (String × Issue)) :
    RunResult :=
  let cl := classify inp.all_rules inp.alertKeys maps.config_dict maps.config_msg
    inp.min_level inp.info_unspecified inp.detailed_output inprog
  let c := scanCounters cl inp.num_urls inp.outcome
  .exited (exitCode c.fail_count c.warn_count c.pass_count)

/-- The decision flow of `main` (src lines 261-288, 336-568): a config
load error exits 3 (lines 266-268, 273-278); a progress document whose
top-level `issues` key is missing raises `KeyError` with no handler in
scope, so `main` crashes (lines 280-288 sit outside every `try`); every
run that gets past loading exits through the count-based verdict. -/
def runMain (inp : MainInput) : RunResult :=
  let loaded : Except String ConfigMaps :=
    match inp.config_lines with
    | none => .ok emptyMaps
    | some lines => load_config lines
  match loaded with
  | .error _ => .exited 3
  | .ok maps =>
    match inp.progress_doc with
    | some doc =>
      match doc.issues with
      | none => .crashed
      | some issues => runVerdict inp maps (load_progress issues)
    | none => runVerdict inp maps []

end ZapBaseline

/-! ## Lemmas about the dictionary model -/

namespace ZapBaseline

theorem dinsert_cons_self {α : Type} (k : String) (v v' : α) (t : List (String × α)) :
    dinsert k v ((k, v') :: t) = (k, v) :: t := by
  simp [dinsert]

theorem dinsert_cons_ne {α : Type} (k k' : String) (v v' : α) (t : List (String × α))
    (h : k' ≠ k) : dinsert k v ((k', v') :: t) = (k', v') :: dinsert k v t := by
  simp [dinsert, h]

theorem dlookup_cons_self {α : Type} (k : String) (v : α) (t : List (String × α)) :
    dlookup k ((k, v) :: t) = some v := by
  simp [dlookup]

theorem dlookup_cons_ne {α : Type} (k k' : String) (v : α) (t : List (String × α))
    (h : k' ≠ k) : dlookup k ((k', v) :: t) = dlookup k t := by
  simp [dlookup, h]

theorem mem_dkeys_dinsert {α : Type} (a k : String) (v : α) (m : List (String × α)) :
    a ∈ dkeys (dinsert k v m) ↔ a = k ∨ a ∈ dkeys m := by
  induction m with
  | nil => simp [dinsert, dkeys]
  | cons p t ih =>
    obtain ⟨k', v'⟩ := p
    by_cases h : k' = k
    · subst h
      rw [dinsert_cons_self]
      simp only [dkeys, List.map_cons, List.mem_cons]
      tauto
    · rw [dinsert_cons_ne _ _ _ _ _ h]
      simp only [dkeys, List.map_cons, List.mem_cons] at ih ⊢
      rw [ih]
      tauto

theorem nodup_dkeys_dinsert {α : Type} (k : String) (v : α) (m : List (String × α))
    (h : (dkeys m).Nodup) : (dkeys (dinsert k v m)).Nodup := by
  induction m with
  | nil => simp [dinsert, dkeys]
  | cons p t ih =>
    obtain ⟨k', v'⟩ := p
    simp only [dkeys, List.map_cons, List.nodup_cons] at h
    by_cases hk : k' = k
    · subst hk
      rw [dinsert_cons_self]
      simp only [dkeys, List.map_cons, List.nodup_cons]
      exact h
    · rw [dinsert_cons_ne _ _ _ _ _ hk]
      simp only [dkeys, List.map_cons, List.nodup_cons]
      refine ⟨fun hc => ?_, ih h.2⟩
      rcases (mem_dkeys_dinsert k' k v t).mp hc with rfl | hc
      · exact hk rfl
      · exact h.1 hc

theorem length_dinsert_of_not_mem {α : Type} (k : String) (v : α) (m : List (String × α))
    (h : k ∉ dkeys m) : (dinsert k v m).length = m.length + 1 := by
  induction m with
  | nil => rfl
  | cons p t ih =>
    obtain ⟨k', v'⟩ := p
    simp only [dkeys, List.map_cons, List.mem_cons] at h
    push_neg at h
    have hk : k' ≠ k := fun he => h.1 he.symm
    rw [dinsert_cons_ne _ _ _ _ _ hk]
    simp only [List.length_cons]
    rw [ih h.2]

theorem mem_dinsert_self {α : Type} (k : String) (v : α) (m : List (String × α)) :
    (k, v) ∈ dinsert k v m := by
  induction m with
  | nil => simp [dinsert]
  | cons p t ih =>
    obtain ⟨k', v'⟩ := p
    by_cases h : k' = k
    · subst h
      rw [dinsert_cons_self]
      exact List.mem_cons_self _ _
    · rw [dinsert_cons_ne _ _ _ _ _ h]
      exact List.mem_cons_of_mem _ ih

theorem mem_dinsert_of_ne {α : Type} (k' k : String) (v' v : α) (m : List (String × α))
    (h : k' ≠ k) : (k', v') ∈ dinsert k v m ↔ (k', v') ∈ m := by
  induction m with
  | nil => simp [dinsert, h]
  | cons q t ih =>
    obtain ⟨k0, v0⟩ := q
    by_cases hk : k0 = k
    · subst hk
      rw [dinsert_cons_self]
      simp only [List.mem_cons, ih]
      constructor
      · rintro (he | hm)
        · exact absurd (congrArg Prod.fst he) h
        · exact Or.inr hm
      · rintro (he | hm)
        · exact absurd (congrArg Prod.fst he) h
        · exact Or.inr hm
    · rw [dinsert_cons_ne _ _ _ _ _ hk]
      simp only [List.mem_cons, ih]

theorem mem_dinsert_elim {α : Type} (p : String × α) (k : String) (v : α)
    (m : List (String × α)) (h : p ∈ dinsert k v m) : p = (k, v) ∨ p ∈ m := by
  induction m with
  | nil => simpa [dinsert] using h
  | cons q t ih =>
    obtain ⟨k0, v0⟩ := q
    by_cases hk : k0 = k
    · subst hk
      rw [dinsert_cons_self] at h
      rcases List.mem_cons.mp h with h1 | hm
      · exact Or.inl h1
      · exact Or.inr (List.mem_cons_of_mem _ hm)
    · rw [dinsert_cons_ne _ _ _ _ _ hk] at h
      rcases List.mem_cons.mp h with h1 | hm
      · exact Or.inr (h1 ▸ List.mem_cons_self _ _)
      · rcases ih hm with h1 | h2
        · exact Or.inl h1
        · exact Or.inr (List.mem_cons_of_mem _ h2)

theorem dlookup_mem {α : Type} (k : String) (v : α) (m : List (String × α))
    (h : dlookup k m = some v) : (k, v) ∈ m := by
  induction m with
  | nil => simp [dlookup] at h
  | cons p t ih =>
    obtain ⟨k', v'⟩ := p
    by_cases hk : k' = k
    · subst hk
      rw [dlookup_cons_self] at h
      rw [Option.some.injEq] at h
      subst h
      exact List.mem_cons_self _ _
    · rw [dlookup_cons_ne _ _ _ _ hk] at h
      exact List.mem_cons_of_mem _ (ih h)

theorem dlookup_eq_none {α : Type} (k : String) (m : List (String × α)) :
    dlookup k m = none ↔ k ∉ dkeys m := by
  induction m with
  | nil => simp [dlookup, dkeys]
  | cons p t ih =>
    obtain ⟨k', v'⟩ := p
    by_cases hk : k' = k
    · subst hk
      rw [dlookup_cons_self]
      simp [dkeys]
    · rw [dlookup_cons_ne _ _ _ _ hk, ih]
      simp only [dkeys, List.map_cons, List.mem_cons]
      constructor
      · rintro h (he | hm)
        · exact hk he.symm
        · exact h hm
      · intro h hm
        exact h (Or.inr hm)

theorem mem_dkeys_dictOfAux {α β : Type} (cond : β → Bool) (keyf : β → String) (valf : β → α)
    (a : String) : ∀ (l : List β) (m : List (String × α)),
    a ∈ dkeys (dictOfAux cond keyf valf m l) ↔
      a ∈ dkeys m ∨ ∃ b, b ∈ l ∧ cond b = true ∧ keyf b = a := by
  intro l
  induction l with
  | nil => simp [dictOfAux]
  | cons b t ih =>
    intro m
    simp only [dictOfAux]
    by_cases hc : cond b
    · rw [if_pos hc, ih, mem_dkeys_dinsert]
      constructor
      · rintro ((rfl | hm) | ⟨b', hb', hcb', hkb'⟩)
        · exact Or.inr ⟨b, List.mem_cons_self _ _, hc, rfl⟩
        · exact Or.inl hm
        · exact Or.inr ⟨b', List.mem_cons_of_mem _ hb', hcb', hkb'⟩
      · rintro (hm | ⟨b', hb', hcb', hkb'⟩)
        · exact Or.inl (Or.inr hm)
        · rcases List.mem_cons.mp hb' with rfl | hb't
          · exact Or.inl (Or.inl hkb'.symm)
          · exact Or.inr ⟨b', hb't, hcb', hkb'⟩
    · rw [if_neg hc, ih]
      constructor
      · rintro (hm | ⟨b', hb', hcb', hkb'⟩)
        · exact Or.inl hm
        · exact Or.inr ⟨b', List.mem_cons_of_mem _ hb', hcb', hkb'⟩
      · rintro (hm | ⟨b', hb', hcb', hkb'⟩)
        · exact Or.inl hm
        · rcases List.mem_cons.mp hb' with rfl | hb't
          · exact absurd hcb' (by simpa using hc)
          · exact Or.inr ⟨b', hb't, hcb', hkb'⟩

theorem nodup_dkeys_dictOfAux {α β : Type} (cond : β → Bool) (keyf : β → String) (valf : β → α) :
    ∀ (l : List β) (m : List (String × α)),
    (dkeys m).Nodup → (dkeys (dictOfAux cond keyf valf m l)).Nodup := by
  intro l
  induction l with
  | nil => intro m h; exact h
  | cons b t ih =>
    intro m h
    simp only [dictOfAux]
    by_cases hc : cond b
    · rw [if_pos hc]
      exact ih _ (nodup_dkeys_dinsert _ _ _ h)
    · rw [if_neg hc]
      exact ih _ h

theorem mem_dictOfAux_mono {α β : Type} (cond : β → Bool) (keyf : β → String) (valf : β → α)
    (k : String) (v : α) : ∀ (l : List β) (m : List (String × α)),
    (k, v) ∈ m → (∀ b, b ∈ l → cond b = true → keyf b ≠ k) →
    (k, v) ∈ dictOfAux cond keyf valf m l := by
  intro l
  induction l with
  | nil => intro m hm _; exact hm
  | cons b t ih =>
    intro m hm hd
    simp only [dictOfAux]
    by_cases hc : cond b
    · rw [if_pos hc]
      refine ih _ ?_ (fun b' hb' => hd b' (List.mem_cons_of_mem _ hb'))
      exact (mem_dinsert_of_ne k (keyf b) v (valf b) m
        (fun he => hd b (List.mem_cons_self _ _) hc he.symm)).mpr hm
    · rw [if_neg hc]
      exact ih _ hm (fun b' hb' => hd b' (List.mem_cons_of_mem _ hb'))

theorem mem_dictOfAux_self {α β : Type} (cond : β → Bool) (keyf : β → String) (valf : β → α)
    (b : β) : ∀ (l : List β) (m : List (String × α)),
    b ∈ l → cond b = true → (l.map keyf).Nodup →
    (keyf b, valf b) ∈ dictOfAux cond keyf valf m l := by
  intro l
  induction l with
  | nil => intro m h; cases h
  | cons b0 t ih =>
    intro m hb hc hn
    simp only [List.map_cons, List.nodup_cons] at hn
    simp only [dictOfAux]
    rcases List.mem_cons.mp hb with rfl | hbt
    · rw [if_pos hc]
      refine mem_dictOfAux_mono _ _ _ _ _ _ _ (mem_dinsert_self _ _ _) ?_
      intro b' hb' _ he
      exact hn.1 (he ▸ List.mem_map_of_mem keyf hb')
    · by_cases hc0 : cond b0
      · rw [if_pos hc0]
        exact ih _ hbt hc hn.2
      · rw [if_neg hc0]
        exact ih _ hbt hc hn.2

theorem mem_dictOfAux_src {α β : Type} (cond : β → Bool) (keyf : β → String) (valf : β → α)
    (p : String × α) : ∀ (l : List β) (m : List (String × α)),
    p ∈ dictOfAux cond keyf valf m l →
    p ∈ m ∨ ∃ b, b ∈ l ∧ cond b = true ∧ p = (keyf b, valf b) := by
  intro l
  induction l with
  | nil => intro m h; exact Or.inl h
  | cons b t ih =>
    intro m h
    simp only [dictOfAux] at h
    by_cases hc : cond b
    · rw [if_pos hc] at h
      rcases ih _ h with hm | ⟨b', hb', hcb', hpb'⟩
      · rcases mem_dinsert_elim _ _ _ _ hm with hp | hp
        · exact Or.inr ⟨b, List.mem_cons_self _ _, hc, hp⟩
        · exact Or.inl hp
      · exact Or.inr ⟨b', List.mem_cons_of_mem _ hb', hcb', hpb'⟩
    · rw [if_neg hc] at h
      rcases ih _ h with hm | ⟨b', hb', hcb', hpb'⟩
      · exact Or.inl hm
      · exact Or.inr ⟨b', List.mem_cons_of_mem _ hb', hcb', hpb'⟩

theorem length_dictOfAux {α β : Type} (cond : β → Bool) (keyf : β → String) (valf : β → α) :
    ∀ (l : List β) (m : List (String × α)),
    ((l.filter cond).map keyf).Nodup →
    (∀ b, b ∈ l → cond b = true → keyf b ∉ dkeys m) →
    (dictOfAux cond keyf valf m l).length = m.length + (l.filter cond).length := by
  intro l
  induction l with
  | nil => intro m _ _; rfl
  | cons b t ih =>
    intro m hn hd
    simp only [dictOfAux]
    by_cases hc : cond b
    · rw [if_pos hc]
      have hfl : (b :: t).filter cond = b :: t.filter cond := by
        simp [List.filter_cons, hc]
      rw [hfl] at hn
      simp only [List.map_cons, List.nodup_cons] at hn
      have hlen := length_dinsert_of_not_mem (keyf b) (valf b) m
        (hd b (List.mem_cons_self _ _) hc)
      rw [ih _ hn.2 ?_, hlen, hfl]
      · simp only [List.length_cons]
        omega
      · intro b' hb' hcb'
        rw [mem_dkeys_dinsert]
        push_neg
        refine ⟨?_, hd b' (List.mem_cons_of_mem _ hb') hcb'⟩
        intro he
        exact hn.1 (he ▸ List.mem_map_of_mem keyf (List.mem_filter.mpr ⟨hb', hcb'⟩))
    · rw [if_neg hc]
      have hfl : (b :: t).filter cond = t.filter cond := by
        simp [List.filter_cons, hc]
      rw [hfl] at hn ⊢
      exact ih _ hn (fun b' hb' => hd b' (List.mem_cons_of_mem _ hb'))

/-- Splitting the length of a filtered list by a second boolean predicate. -/
theorem length_filter_split {α : Type} (q : α → Bool) :
    ∀ l : List α, (l.filter q).length + (l.filter (fun a => !q a)).length = l.length := by
  intro l
  induction l with
  | nil => rfl
  | cons a t ih =>
    cases h : q a <;> simp [List.filter_cons, h] <;> omega

end ZapBaseline

/-! ## Characterisations of the derived dictionaries and of `print_rules` -/

namespace ZapBaseline

theorem mem_dkeys_pass_dict (all_rules : List (String × String)) (alertKeys : List String)
    (a : String) :
    a ∈ dkeys (pass_dict all_rules alertKeys) ↔
      (∃ nm, (a, nm) ∈ all_rules) ∧ a ∉ blacklist ∧ a ∉ alertKeys := by
  unfold pass_dict dictOf
  rw [mem_dkeys_dictOfAux]
  simp only [dkeys, List.map_nil, List.not_mem_nil, false_or]
  constructor
  · rintro ⟨b, hb, hcb, rfl⟩
    simp only [Bool.and_eq_true, Bool.not_eq_true', decide_eq_false_iff_not] at hcb
    exact ⟨⟨b.2, hb⟩, hcb.1, hcb.2⟩
  · rintro ⟨⟨nm, hmem⟩, hbl, hal⟩
    exact ⟨(a, nm), hmem, by simp [hbl, hal], rfl⟩

theorem mem_dkeys_all_dict (all_rules : List (String × String)) (a : String) :
    a ∈ dkeys (all_dict all_rules) ↔ (∃ nm, (a, nm) ∈ all_rules) ∧ a ∉ blacklist := by
  unfold all_dict dictOf
  rw [mem_dkeys_dictOfAux]
  simp only [dkeys, List.map_nil, List.not_mem_nil, false_or]
  constructor
  · rintro ⟨b, hb, hcb, rfl⟩
    simp only [Bool.not_eq_true', decide_eq_false_iff_not] at hcb
    exact ⟨⟨b.2, hb⟩, hcb⟩
  · rintro ⟨⟨nm, hmem⟩, hbl⟩
    exact ⟨(a, nm), hmem, by simp [hbl], rfl⟩

theorem nodup_dkeys_all_dict (all_rules : List (String × String)) :
    (dkeys (all_dict all_rules)).Nodup :=
  nodup_dkeys_dictOfAux _ _ _ _ _ (by simp [dkeys])

theorem mem_all_dict_of_mem (all_rules : List (String × String)) (id name : String)
    (hn : (all_rules.map Prod.fst).Nodup) (hmem : (id, name) ∈ all_rules)
    (hbl : id ∉ blacklist) : (id, name) ∈ all_dict all_rules :=
  mem_dictOfAux_self _ Prod.fst Prod.snd (id, name) all_rules [] hmem (by simpa using hbl) hn

theorem mem_all_dict_elim (all_rules : List (String × String)) (p : String × String)
    (h : p ∈ all_dict all_rules) : p ∈ all_rules ∧ p.1 ∉ blacklist := by
  rcases mem_dictOfAux_src _ _ _ _ _ _ h with hm | ⟨b, hb, hcb, hpb⟩
  · cases hm
  · simp only [Bool.not_eq_true', decide_eq_false_iff_not] at hcb
    constructor
    · rw [hpb]; exact hb
    · rw [hpb]; exact hcb

theorem length_pass_dict_of_nodup (all_rules : List (String × String)) (alertKeys : List String)
    (hn : (all_rules.map Prod.fst).Nodup) :
    (pass_dict all_rules alertKeys).length =
      (all_rules.filter
        (fun r => !decide (r.1 ∈ blacklist) && !decide (r.1 ∈ alertKeys))).length := by
  unfold pass_dict dictOf
  rw [length_dictOfAux]
  · simp
  · exact ((List.filter_sublist all_rules).map Prod.fst).nodup hn
  · intro b _ _
    simp [dkeys]

theorem load_progress_keys (issues : List Issue) (a : String) :
    a ∈ dkeys (load_progress issues) ↔
      ∃ i, i ∈ issues ∧ i.state = "inprogress" ∧ i.id = a := by
  unfold load_progress dictOf
  rw [mem_dkeys_dictOfAux]
  simp only [dkeys, List.map_nil, List.not_mem_nil, false_or, decide_eq_true_eq]

theorem load_progress_values (issues : List Issue) (a : String) (r : Issue)
    (h : dlookup a (load_progress issues) = some r) :
    r ∈ issues ∧ r.id = a ∧ r.state = "inprogress" := by
  have hmem := dlookup_mem _ _ _ h
  rcases mem_dictOfAux_src _ _ _ _ _ _ hmem with hm | ⟨b, hb, hcb, hpb⟩
  · cases hm
  · simp only [decide_eq_true_eq] at hcb
    rw [Prod.mk.injEq] at hpb
    refine ⟨hpb.2 ▸ hb, ?_, hpb.2 ▸ hcb⟩
    rw [hpb.2, hpb.1]

/-- Swapping the conjuncts of a boolean filter predicate. -/
theorem filter_and_comm {α : Type} (p q : α → Bool) (l : List α) :
    l.filter (fun a => p a && q a) = l.filter (fun a => q a && p a) :=
  List.filter_congr (fun _ _ => Bool.and_comm _ _)

theorem print_rules_fst (alert_dict : List String) (level : String)
    (config_dict : List (String × Dispo)) (config_msg : List (String × String))
    (min_level : Nat) (inc_rule : List (String × Dispo) → String → Bool → Bool)
    (include_rule : Bool) (detailed_output : Bool)
    (in_progress_issues : List (String × Issue)) :
    (print_rules alert_dict level config_dict config_msg min_level inc_rule include_rule
        detailed_output in_progress_issues).2.1 =
      (alert_dict.filter (fun k =>
        inc_rule config_dict k include_rule && !decide (k ∈ dkeys in_progress_issues))).length := by
  show (((sortKeys alert_dict).filter (fun k => inc_rule config_dict k include_rule)).filter
    (fun k => !decide (k ∈ dkeys in_progress_issues))).length = _
  rw [List.filter_filter, filter_and_comm]
  exact ((List.perm_insertionSort strLE alert_dict).filter _).length_eq

theorem print_rules_snd (alert_dict : List String) (level : String)
    (config_dict : List (String × Dispo)) (config_msg : List (String × String))
    (min_level : Nat) (inc_rule : List (String × Dispo) → String → Bool → Bool)
    (include_rule : Bool) (detailed_output : Bool)
    (in_progress_issues : List (String × Issue)) :
    (print_rules alert_dict level config_dict config_msg min_level inc_rule include_rule
        detailed_output in_progress_issues).2.2 =
      (alert_dict.filter (fun k =>
        inc_rule config_dict k include_rule && decide (k ∈ dkeys in_progress_issues))).length := by
  show (((sortKeys alert_dict).filter (fun k => inc_rule config_dict k include_rule)).filter
    (fun k => decide (k ∈ dkeys in_progress_issues))).length = _
  rw [List.filter_filter, filter_and_comm]
  exact ((List.perm_insertionSort strLE alert_dict).filter _).length_eq

theorem mem_print_rules_output (alert_dict : List String) (level : String)
    (config_dict : List (String × Dispo)) (config_msg : List (String × String))
    (min_level : Nat) (inc_rule : List (String × Dispo) → String → Bool → Bool)
    (include_rule : Bool) (detailed_output : Bool)
    (in_progress_issues : List (String × Issue)) (key : String)
    (hk : key ∈ alert_dict) (hinc : inc_rule config_dict key include_rule = true)
    (hl : min_level ≤ lvlIndex level) :
    fmtLine level key ((dlookup key config_msg).getD "") ∈
      (print_rules alert_dict level config_dict config_msg min_level inc_rule include_rule
        detailed_output in_progress_issues).1 := by
  have h1 : key ∈ (sortKeys alert_dict).filter (fun k => inc_rule config_dict k include_rule) :=
    List.mem_filter.mpr ⟨(List.mem_insertionSort strLE).mpr hk, hinc⟩
  show fmtLine level key ((dlookup key config_msg).getD "") ∈
    (if min_level ≤ lvlIndex level then
        ((sortKeys alert_dict).filter (fun k => inc_rule config_dict k include_rule)).map
          (fun k => fmtLine level k ((dlookup k config_msg).getD ""))
      else [])
  rw [if_pos hl]
  exact List.mem_map_of_mem _ h1

theorem exitCode_eq_one_iff (f w p : Nat) : exitCode f w p = 1 ↔ 0 < f := by
  unfold exitCode
  split_ifs with h1 h2 h3 <;> simp [h1]

end ZapBaseline

/-! ## The claims -/

namespace ZapBaseline

/-- C1: Verdict/exit-code derivation follows the fixed priority
FAIL > WARN > PASS > inconclusive: a process that reaches the verdict
step exits 1 when `fail_count > 0`, else 2 when `warn_count > 0`, else 0
when `pass_count > 0`, else 3 — a single FAIL outweighs any number of
WARNs or PASSes, and every run that reaches the verdict step exits with
the code computed from its counters. -/
theorem C1_verdict_priority (fail_count warn_count pass_count : Nat) :
    (0 < fail_count → exitCode fail_count warn_count pass_count = 1) ∧
    (fail_count = 0 → 0 < warn_count → exitCode fail_count warn_count pass_count = 2) ∧
    (fail_count = 0 → warn_count = 0 → 0 < pass_count →
      exitCode fail_count warn_count pass_count = 0) ∧
    (fail_count = 0 → warn_count = 0 → pass_count = 0 →
      exitCode fail_count warn_count pass_count = 3) ∧
    (∀ (inp : MainInput) (maps : ConfigMaps) (inprog : List (String × Issue)),
      ∃ c : Counters, runVerdict inp maps inprog =
        RunResult.exited (exitCode c.fail_count c.warn_count c.pass_count)) := by
  refine ⟨?_, ?_, ?_, ?_, fun inp maps inprog => ⟨_, rfl⟩⟩ <;>
  · intros
    unfold exitCode
    split_ifs <;> omega

theorem C1_verdict_priority_witness :
    exitCode 1 5 10 = 1 ∧ exitCode 0 3 10 = 2 ∧ exitCode 0 0 7 = 0 ∧ exitCode 0 0 0 = 3 :=
  ⟨(C1_verdict_priority 1 5 10).1 (by decide),
   (C1_verdict_priority 0 3 10).2.1 rfl (by decide),
   (C1_verdict_priority 0 0 7).2.2.1 rfl rfl (by decide),
   (C1_verdict_priority 0 0 0).2.2.2.1 rfl rfl rfl⟩

/-- C2: For every fired rule, the disposition is resolved by the
three-step precedence chain: an explicit override for the rule id always
wins (and its message is attached to the printed line); otherwise, under
the `-i` mode the disposition is INFO; otherwise it is WARN — so a
firing rule without an override is never silently ignored and never an
automatic failure.  The four inclusion predicates, called with exactly
the flags `main` passes, place each fired rule in precisely the bucket
the precedence chain resolves. -/
theorem C2_disposition_precedence (config_dict : List (String × Dispo)) (iu : Bool)
    (key : String) :
    (∀ d, dlookup key config_dict = some d → resolve_disposition config_dict iu key = d) ∧
    (dlookup key config_dict = none →
      resolve_disposition config_dict iu key = (if iu then Dispo.INFO else Dispo.WARN) ∧
      resolve_disposition config_dict iu key ≠ Dispo.IGNORE ∧
      resolve_disposition config_dict iu key ≠ Dispo.FAIL) ∧
    inc_ignore_rules config_dict key true =
      decide (resolve_disposition config_dict iu key = Dispo.IGNORE) ∧
    inc_info_rules config_dict key iu =
      decide (resolve_disposition config_dict iu key = Dispo.INFO) ∧
    inc_warn_rules config_dict key (!iu) =
      decide (resolve_disposition config_dict iu key = Dispo.WARN) ∧
    inc_fail_rules config_dict key true =
      decide (resolve_disposition config_dict iu key = Dispo.FAIL) ∧
    (∀ (all_rules : List (String × String)) (alertKeys : List String)
        (config_msg : List (String × String)) (minl : Nat) (det : Bool)
        (inprog : List (String × Issue)) (d : Dispo) (msg : String),
      key ∈ alertKeys → dlookup key config_dict = some d →
      dlookup key config_msg = some msg → minl ≤ lvlIndex d.keyword →
      fmtLine d.keyword key msg ∈
        (classify all_rules alertKeys config_dict config_msg minl iu det inprog).output) := by
  refine ⟨?_, ?_, ?_, ?_, ?_, ?_, ?_⟩
  · intro d h
    simp [resolve_disposition, h]
  · intro h
    cases iu <;> simp [resolve_disposition, h]
  · cases h : dlookup key config_dict with
    | none => cases iu <;> simp [inc_ignore_rules, resolve_disposition, h]
    | some d => cases d <;> simp [inc_ignore_rules, resolve_disposition, h]
  · cases h : dlookup key config_dict with
    | none => cases iu <;> simp [inc_info_rules, resolve_disposition, h]
    | some d => cases d <;> simp [inc_info_rules, resolve_disposition, h]
  · cases h : dlookup key config_dict with
    | none => cases iu <;> simp [inc_warn_rules, resolve_disposition, h]
    | some d => cases d <;> simp [inc_warn_rules, resolve_disposition, h]
  · cases h : dlookup key config_dict with
    | none => cases iu <;> simp [inc_fail_rules, resolve_disposition, h]
    | some d => cases d <;> simp [inc_fail_rules, resolve_disposition, h]
  · intro all_rules alertKeys config_msg minl det inprog d msg hk hcd hcm hml
    have hgetD : (dlookup key config_msg).getD "" = msg := by rw [hcm]; rfl
    have hcl : (classify all_rules alertKeys config_dict config_msg minl iu det inprog).output =
        (if minl = lvlIndex "PASS" ∧ det = true then
          (List.insertionSort pairLE (pass_dict all_rules alertKeys)).map
            (fun r => "PASS: " ++ r.2 ++ " [" ++ r.1 ++ "]")
        else []) ++
        (print_rules alertKeys "IGNORE" config_dict config_msg minl
          inc_ignore_rules true det []).1 ++
        (print_rules alertKeys "INFO" config_dict config_msg minl
          inc_info_rules iu det inprog).1 ++
        (print_rules alertKeys "WARN" config_dict config_msg minl
          inc_warn_rules (!iu) det inprog).1 ++
        (print_rules alertKeys "FAIL" config_dict config_msg minl
          inc_fail_rules true det inprog).1 := rfl
    rw [hcl]
    cases d with
    | IGNORE =>
      have hmem := mem_print_rules_output alertKeys "IGNORE" config_dict config_msg minl
        inc_ignore_rules true det [] key hk (by simp [inc_ignore_rules, hcd]) hml
      rw [hgetD] at hmem
      simp only [List.mem_append]
      tauto
    | INFO =>
      have hmem := mem_print_rules_output alertKeys "INFO" config_dict config_msg minl
        inc_info_rules iu det inprog key hk (by simp [inc_info_rules, hcd]) hml
      rw [hgetD] at hmem
      simp only [List.mem_append]
      tauto
    | WARN =>
      have hmem := mem_print_rules_output alertKeys "WARN" config_dict config_msg minl
        inc_warn_rules (!iu) det inprog key hk (by simp [inc_warn_rules, hcd]) hml
      rw [hgetD] at hmem
      simp only [List.mem_append]
      tauto
    | FAIL =>
      have hmem := mem_print_rules_output alertKeys "FAIL" config_dict config_msg minl
        inc_fail_rules true det inprog key hk (by simp [inc_fail_rules, hcd]) hml
      rw [hgetD] at hmem
      simp only [List.mem_append]
      tauto

theorem C2_disposition_precedence_witness :
    resolve_disposition [("10016", Dispo.FAIL)] false "10016" = Dispo.FAIL ∧
    fmtLine (Dispo.FAIL).keyword "10016" "known issue" ∈
      (classify [("10016", "Hdr")] ["10016"] [("10016", Dispo.FAIL)]
        [("10016", "known issue")] 0 false true []).output :=
  ⟨(C2_disposition_precedence [("10016", Dispo.FAIL)] false "10016").1 Dispo.FAIL rfl,
   (C2_disposition_precedence [("10016", Dispo.FAIL)] false "10016").2.2.2.2.2.2
     [("10016", "Hdr")] ["10016"] [("10016", "known issue")] 0 true [] Dispo.FAIL "known issue"
     (by decide) rfl rfl (by decide)⟩

end ZapBaseline

namespace ZapBaseline

/-- C3 counterexample: for the one-rule catalog `[("10020", …)]` and an
empty finding set the classification yields `pass_count = 1`, but
`|C| − |blacklist| = 1 − 4 = −3 ≠ 1`: the claimed equation
`pass_count = |C| − |blacklist|` fails whenever the blacklisted ids are
not all present in the catalog. -/
theorem C3_pass_count_counterexample :
    (classify [("10020", "X-Frame-Options Header Not Set")] [] [] [] 0 false true
      []).pass_count = 1 ∧
    ¬ (((classify [("10020", "X-Frame-Options Header Not Set")] [] [] [] 0 false true
          []).pass_count : Int) =
        (([("10020", "X-Frame-Options Header Not Set")] : List (String × String)).length : Int) -
        (blacklist.length : Int)) := by
  decide

/-- C3 (amended): a catalog rule is in the PASS dictionary exactly when
it is not blacklisted and has no surviving finding — in particular a
rule with no surviving findings is PASS regardless of any disposition
override, since `pass_dict` never consults the config; and for an empty
finding set (with distinct catalog ids) `pass_count` equals the number
of catalog rules whose id is not blacklisted, while every other
disposition count is zero. -/
theorem C3_pass_classification (all_rules : List (String × String)) :
    (∀ (alertKeys : List String) (a : String),
      a ∈ dkeys (pass_dict all_rules alertKeys) ↔
        (∃ nm, (a, nm) ∈ all_rules) ∧ a ∉ blacklist ∧ a ∉ alertKeys) ∧
    ((all_rules.map Prod.fst).Nodup →
      ∀ (config_dict : List (String × Dispo)) (config_msg : List (String × String))
        (minl : Nat) (iu det : Bool) (inprog : List (String × Issue)),
        (classify all_rules [] config_dict config_msg minl iu det inprog).pass_count =
          (all_rules.filter (fun r => !decide (r.1 ∈ blacklist))).length ∧
        (classify all_rules [] config_dict config_msg minl iu det inprog).ignore_count = 0 ∧
        (classify all_rules [] config_dict config_msg minl iu det inprog).info_count = 0 ∧
        (classify all_rules [] config_dict config_msg minl iu det inprog).warn_count = 0 ∧
        (classify all_rules [] config_dict config_msg minl iu det inprog).fail_count = 0) := by
  constructor
  · exact fun alertKeys a => mem_dkeys_pass_dict all_rules alertKeys a
  · intro hn config_dict config_msg minl iu det inprog
    refine ⟨?_, rfl, rfl, rfl, rfl⟩
    show (pass_dict all_rules []).length = _
    rw [length_pass_dict_of_nodup all_rules [] hn]
    refine congrArg List.length (List.filter_congr ?_)
    intro r _
    simp

theorem C3_pass_classification_witness :
    ("10016" ∈ dkeys (pass_dict [("10016", "Hdr"), ("-1", "Example")] []) ↔
      (∃ nm, ("10016", nm) ∈ [("10016", "Hdr"), ("-1", "Example")]) ∧
      "10016" ∉ blacklist ∧ "10016" ∉ ([] : List String)) ∧
    (classify [("10016", "Hdr"), ("-1", "Example")] [] [] [] 0 false true []).pass_count =
      (([("10016", "Hdr"), ("-1", "Example")] : List (String × String)).filter
        (fun r => !decide (r.1 ∈ blacklist))).length :=
  ⟨(C3_pass_classification [("10016", "Hdr"), ("-1", "Example")]).1 [] "10016",
   ((C3_pass_classification [("10016", "Hdr"), ("-1", "Example")]).2 (by decide)
     [] [] 0 false true []).1⟩

/-- C4 counterexample: with a FAIL override on rule "90022" and a
progress entry `("90022", "inprogress")`, the full run exits with code
3, not 1: the in-progress FAIL is counted in `fail_inprog_count` (= 1)
and excluded from `fail_count` (= 0), and the verdict only consults
`fail_count` — so the claim's "exit code 1" is false. -/
theorem C4_inprogress_fail_counterexample :
    (runMain ⟨some ["90022\tFAIL"], some ⟨some [⟨"90022", "inprogress", []⟩]⟩,
        [("90022", "User Controllable HTML Element Attribute")], ["90022"], 0, false, true, 1,
        TryOutcome.ok⟩ = RunResult.exited 3) ∧
    ¬ (runMain ⟨some ["90022\tFAIL"], some ⟨some [⟨"90022", "inprogress", []⟩]⟩,
        [("90022", "User Controllable HTML Element Attribute")], ["90022"], 0, false, true, 1,
        TryOutcome.ok⟩ = RunResult.exited 1) ∧
    (classify [("90022", "User Controllable HTML Element Attribute")] ["90022"]
        [("90022", Dispo.FAIL)] [] 0 false true
        [("90022", ⟨"90022", "inprogress", []⟩)]).fail_inprog_count = 1 ∧
    (classify [("90022", "User Controllable HTML Element Attribute")] ["90022"]
        [("90022", Dispo.FAIL)] [] 0 false true
        [("90022", ⟨"90022", "inprogress", []⟩)]).fail_count = 0 := by
  decide

/-- C4 (amended): for every rule with a FAIL override and an in-progress
progress entry, the resolved disposition stays FAIL and the rule is
counted in `fail_inprog_count`; but in-progress FAILs are excluded from
`fail_count` (the `FAIL-NEW` counter), and the run exits 1 exactly when
some fired FAIL-overridden rule is *not* in progress — a run whose only
FAILs are all in progress does not exit 1. -/
theorem C4_inprogress_fail (all_rules : List (String × String)) (alertKeys : List String)
    (config_dict : List (String × Dispo)) (config_msg : List (String × String))
    (minl : Nat) (iu det : Bool) (inprog : List (String × Issue)) (rid : String)
    (h1 : rid ∈ alertKeys) (h2 : dlookup rid config_dict = some Dispo.FAIL)
    (h3 : rid ∈ dkeys inprog) :
    resolve_disposition config_dict iu rid = Dispo.FAIL ∧
    0 < (classify all_rules alertKeys config_dict config_msg minl iu det
        inprog).fail_inprog_count ∧
    (classify all_rules alertKeys config_dict config_msg minl iu det inprog).fail_count =
      (alertKeys.filter (fun k =>
        inc_fail_rules config_dict k true && !decide (k ∈ dkeys inprog))).length ∧
    (exitCode
        (classify all_rules alertKeys config_dict config_msg minl iu det inprog).fail_count
        (classify all_rules alertKeys config_dict config_msg minl iu det inprog).warn_count
        (classify all_rules alertKeys config_dict config_msg minl iu det inprog).pass_count = 1 ↔
      ∃ k, k ∈ alertKeys ∧ dlookup k config_dict = some Dispo.FAIL ∧ k ∉ dkeys inprog) := by
  have hfc : (classify all_rules alertKeys config_dict config_msg minl iu det
      inprog).fail_count =
      (alertKeys.filter (fun k =>
        inc_fail_rules config_dict k true && !decide (k ∈ dkeys inprog))).length := by
    show (print_rules alertKeys "FAIL" config_dict config_msg minl inc_fail_rules true det
      inprog).2.1 = _
    exact print_rules_fst _ _ _ _ _ _ _ _ _
  have hfi : (classify all_rules alertKeys config_dict config_msg minl iu det
      inprog).fail_inprog_count =
      (alertKeys.filter (fun k =>
        inc_fail_rules config_dict k true && decide (k ∈ dkeys inprog))).length := by
    show (print_rules alertKeys "FAIL" config_dict config_msg minl inc_fail_rules true det
      inprog).2.2 = _
    exact print_rules_snd _ _ _ _ _ _ _ _ _
  refine ⟨by simp [resolve_disposition, h2], ?_, hfc, ?_⟩
  · rw [hfi]
    exact List.length_pos_of_mem
      (List.mem_filter.mpr ⟨h1, by simp [inc_fail_rules, h2, h3]⟩)
  · rw [exitCode_eq_one_iff, hfc, List.length_pos_iff_exists_mem]
    constructor
    · rintro ⟨k, hk⟩
      obtain ⟨hka, hkc⟩ := List.mem_filter.mp hk
      simp only [inc_fail_rules, Bool.and_eq_true, Bool.not_eq_true',
        decide_eq_false_iff_not, decide_eq_true_eq] at hkc
      exact ⟨k, hka, hkc.1, hkc.2⟩
    · rintro ⟨k, hka, hkc, hkm⟩
      exact ⟨k, List.mem_filter.mpr ⟨hka, by simp [inc_fail_rules, hkc, hkm]⟩⟩

theorem C4_inprogress_fail_witness :
    resolve_disposition [("90022", Dispo.FAIL)] false "90022" = Dispo.FAIL ∧
    0 < (classify [("90022", "nm")] ["90022"] [("90022", Dispo.FAIL)] [] 0 false true
        [("90022", ⟨"90022", "inprogress", []⟩)]).fail_inprog_count ∧
    (classify [("90022", "nm")] ["90022"] [("90022", Dispo.FAIL)] [] 0 false true
        [("90022", ⟨"90022", "inprogress", []⟩)]).fail_count =
      ((["90022"] : List String).filter (fun k =>
        inc_fail_rules [("90022", Dispo.FAIL)] k true &&
        !decide (k ∈ dkeys [("90022", (⟨"90022", "inprogress", []⟩ : Issue))]))).length ∧
    (exitCode
        (classify [("90022", "nm")] ["90022"] [("90022", Dispo.FAIL)] [] 0 false true
          [("90022", ⟨"90022", "inprogress", []⟩)]).fail_count
        (classify [("90022", "nm")] ["90022"] [("90022", Dispo.FAIL)] [] 0 false true
          [("90022", ⟨"90022", "inprogress", []⟩)]).warn_count
        (classify [("90022", "nm")] ["90022"] [("90022", Dispo.FAIL)] [] 0 false true
          [("90022", ⟨"90022", "inprogress", []⟩)]).pass_count = 1 ↔
      ∃ k, k ∈ (["90022"] : List String) ∧
        dlookup k [("90022", Dispo.FAIL)] = some Dispo.FAIL ∧
        k ∉ dkeys [("90022", (⟨"90022", "inprogress", []⟩ : Issue))]) :=
  C4_inprogress_fail [("90022", "nm")] ["90022"] [("90022", Dispo.FAIL)] [] 0 false true
    [("90022", ⟨"90022", "inprogress", []⟩)] "90022" (by decide) rfl (by decide)

/-- C5: two classifications that differ only in the configured minimum
display level produce identical per-disposition counts (including the
in-progress counts) and hence the same exit code: the minimum level
gates textual output only. -/
theorem C5_min_level_invariance (all_rules : List (String × String)) (alertKeys : List String)
    (config_dict : List (String × Dispo)) (config_msg : List (String × String))
    (iu det : Bool) (inprog : List (String × Issue)) (m1 m2 : Nat) :
    (classify all_rules alertKeys config_dict config_msg m1 iu det inprog).pass_count =
      (classify all_rules alertKeys config_dict config_msg m2 iu det inprog).pass_count ∧
    (classify all_rules alertKeys config_dict config_msg m1 iu det inprog).ignore_count =
      (classify all_rules alertKeys config_dict config_msg m2 iu det inprog).ignore_count ∧
    (classify all_rules alertKeys config_dict config_msg m1 iu det inprog).info_count =
      (classify all_rules alertKeys config_dict config_msg m2 iu det inprog).info_count ∧
    (classify all_rules alertKeys config_dict config_msg m1 iu det inprog).warn_count =
      (classify all_rules alertKeys config_dict config_msg m2 iu det inprog).warn_count ∧
    (classify all_rules alertKeys config_dict config_msg m1 iu det inprog).fail_count =
      (classify all_rules alertKeys config_dict config_msg m2 iu det inprog).fail_count ∧
    (classify all_rules alertKeys config_dict config_msg m1 iu det inprog).warn_inprog_count =
      (classify all_rules alertKeys config_dict config_msg m2 iu det inprog).warn_inprog_count ∧
    (classify all_rules alertKeys config_dict config_msg m1 iu det inprog).fail_inprog_count =
      (classify all_rules alertKeys config_dict config_msg m2 iu det inprog).fail_inprog_count ∧
    exitCode
        (classify all_rules alertKeys config_dict config_msg m1 iu det inprog).fail_count
        (classify all_rules alertKeys config_dict config_msg m1 iu det inprog).warn_count
        (classify all_rules alertKeys config_dict config_msg m1 iu det inprog).pass_count =
      exitCode
        (classify all_rules alertKeys config_dict config_msg m2 iu det inprog).fail_count
        (classify all_rules alertKeys config_dict config_msg m2 iu det inprog).warn_count
        (classify all_rules alertKeys config_dict config_msg m2 iu det inprog).pass_count :=
  ⟨rfl, rfl, rfl, rfl, rfl, rfl, rfl, rfl⟩

end ZapBaseline

namespace ZapBaseline

theorem parseConfigLine_error (line rule_id tok : String) (rest : List String)
    (hne : line ≠ "") (hnc : line.data.head? ≠ some '#')
    (hsplit : tabFields line = rule_id :: tok :: rest)
    (hns : ¬ scopeMarker.data.isPrefixOf rule_id.data)
    (hbad : parseDispo tok = none) :
    parseConfigLine line =
      .error ("Unexpected disposition in config record: " ++ line ++ " value: " ++ tok) := by
  simp [parseConfigLine, hne, hnc, hsplit, hns, hbad]

theorem loadConfigFrom_error (line e : String) (hbad : parseConfigLine line = .error e) :
    ∀ lines : List String, line ∈ lines →
      ∀ m : ConfigMaps, ∃ e', loadConfigFrom m lines = .error e' := by
  intro lines
  induction lines with
  | nil => intro h; cases h
  | cons l t ih =>
    intro hmem m
    rcases List.mem_cons.mp hmem with rfl | hmem'
    · exact ⟨e, by unfold loadConfigFrom; rw [hbad]⟩
    · cases hp : parseConfigLine l with
      | error e2 => exact ⟨e2, by unfold loadConfigFrom; rw [hp]⟩
      | ok r =>
        cases r with
        | none =>
          obtain ⟨e', he'⟩ := ih hmem' m
          exact ⟨e', by unfold loadConfigFrom; rw [hp]; exact he'⟩
        | some r =>
          obtain ⟨e', he'⟩ := ih hmem' (applyRecord m r)
          exact ⟨e', by unfold loadConfigFrom; rw [hp]; exact he'⟩

/-- C6: for every config input containing a disposition record (not
blank, not a comment, not a scope record) whose disposition token is not
one of the case-sensitive keywords IGNORE/INFO/WARN/FAIL, the loader
fails with a config format error, and every run loading that config
aborts with exit code 3 without guessing a disposition. -/
theorem C6_config_reject (lines : List String) (line rule_id tok : String) (rest : List String)
    (hmem : line ∈ lines) (hne : line ≠ "") (hnc : line.data.head? ≠ some '#')
    (hsplit : tabFields line = rule_id :: tok :: rest)
    (hns : ¬ scopeMarker.data.isPrefixOf rule_id.data)
    (hbad : parseDispo tok = none) :
    (∃ e, load_config lines = .error e) ∧
    (∀ inp : MainInput, inp.config_lines = some lines → runMain inp = RunResult.exited 3) := by
  have herr := parseConfigLine_error line rule_id tok rest hne hnc hsplit hns hbad
  have hload : ∃ e', load_config lines = .error e' :=
    loadConfigFrom_error line _ herr lines hmem emptyMaps
  refine ⟨hload, ?_⟩
  intro inp hcl
  obtain ⟨e', he'⟩ := hload
  simp [runMain, hcl, he']

theorem C6_config_reject_witness :
    (∃ e, load_config ["10020\tBANANA"] = .error e) ∧
    runMain ⟨some ["10020\tBANANA"], none, [("10020", "XFO")], [], 0, false, true, 0,
      TryOutcome.ok⟩ = RunResult.exited 3 :=
  ⟨(C6_config_reject ["10020\tBANANA"] "10020\tBANANA" "10020" "BANANA" [] (by decide)
      (by decide) (by decide) (by decide) (by decide) rfl).1,
   (C6_config_reject ["10020\tBANANA"] "10020\tBANANA" "10020" "BANANA" [] (by decide)
      (by decide) (by decide) (by decide) (by decide) rfl).2
     ⟨some ["10020\tBANANA"], none, [("10020", "XFO")], [], 0, false, true, 0,
       TryOutcome.ok⟩ rfl⟩

/-- C7 (code bug): a progress document whose top-level `issues` list is
absent does make loading fail, but the failure is an uncaught `KeyError`
(src lines 280-288 are outside every `try` block), so the interpreter
terminates with a traceback instead of aborting with exit code 3 as the
config-error path (src lines 266-268) does and as the script's own
exit-code contract (src lines 35-39) requires. -/
theorem C7_progress_crash :
    runMain ⟨none, some ⟨none⟩, [("10020", "X-Frame-Options Header Not Set")], [], 0, false,
        true, 0, TryOutcome.ok⟩ = RunResult.crashed ∧
    ¬ (runMain ⟨none, some ⟨none⟩, [("10020", "X-Frame-Options Header Not Set")], [], 0, false,
        true, 0, TryOutcome.ok⟩ = RunResult.exited 3) := by
  decide

/-- C8: the progress loader produces a map from issue id to the full
issue record containing exactly the issues whose `state` equals
`"inprogress"`; entries with any other state never enter the map. -/
theorem C8_progress_filter (issues : List Issue) (a : String) :
    (a ∈ dkeys (load_progress issues) ↔
      ∃ i, i ∈ issues ∧ i.state = "inprogress" ∧ i.id = a) ∧
    (∀ r, dlookup a (load_progress issues) = some r →
      r ∈ issues ∧ r.id = a ∧ r.state = "inprogress") :=
  ⟨load_progress_keys issues a, fun r h => load_progress_values issues a r h⟩

theorem C8_progress_filter_witness :
    ((⟨"90022", "inprogress", []⟩ : Issue) ∈
        ([⟨"90022", "inprogress", []⟩, ⟨"10020", "done", []⟩] : List Issue)) ∧
    Issue.id ⟨"90022", "inprogress", []⟩ = "90022" ∧
    Issue.state ⟨"90022", "inprogress", []⟩ = "inprogress" :=
  (C8_progress_filter [⟨"90022", "inprogress", []⟩, ⟨"10020", "done", []⟩] "90022").2
    ⟨"90022", "inprogress", []⟩ rfl

/-- C9: the generated template consists of the four fixed header lines
followed by exactly one record line `id<TAB>WARN<TAB>(name)` for every
catalog rule id not on the blacklist, ordered by rule id. -/
theorem C9_template (all_rules : List (String × String))
    (hn : (all_rules.map Prod.fst).Nodup) :
    gen_file all_rules =
      gen_header ++ (List.insertionSort pairLE (all_dict all_rules)).map
        (fun r => r.1 ++ "\tWARN\t(" ++ r.2 ++ ")") ∧
    List.Sorted pairLE (List.insertionSort pairLE (all_dict all_rules)) ∧
    (dkeys (List.insertionSort pairLE (all_dict all_rules))).Nodup ∧
    (∀ id name, (id, name) ∈ all_rules → id ∉ blacklist →
      (id, name) ∈ List.insertionSort pairLE (all_dict all_rules)) ∧
    (∀ p, p ∈ List.insertionSort pairLE (all_dict all_rules) →
      p ∈ all_rules ∧ p.1 ∉ blacklist) := by
  refine ⟨rfl, List.sorted_insertionSort pairLE _, ?_, ?_, ?_⟩
  · exact ((List.perm_insertionSort pairLE (all_dict all_rules)).map
      Prod.fst).nodup_iff.mpr (nodup_dkeys_all_dict all_rules)
  · intro id name hmem hbl
    exact (List.mem_insertionSort pairLE).mpr (mem_all_dict_of_mem all_rules id name hn hmem hbl)
  · intro p hp
    exact mem_all_dict_elim all_rules p ((List.mem_insertionSort pairLE).mp hp)

theorem C9_template_witness :
    ("10016", "Hdr") ∈ List.insertionSort pairLE
        (all_dict [("10020", "XFO"), ("10016", "Hdr"), ("-1", "Example")]) ∧
    gen_file [("10020", "XFO"), ("10016", "Hdr"), ("-1", "Example")] =
      gen_header ++ ["10016\tWARN\t(Hdr)", "10020\tWARN\t(XFO)"] :=
  ⟨(C9_template [("10020", "XFO"), ("10016", "Hdr"), ("-1", "Example")] (by decide)).2.2.2.1
      "10016" "Hdr" (by decide) (by decide),
   by decide⟩

/-- C10: whenever the config and progress loading phases succeed, every
way the scan-and-classify `try` block can end — normally, or with an
`IOError` or any other exception after any prefix of the counter
assignments — still terminates the process through the count-based
verdict logic with whatever counters were accumulated; the exception
never escapes, and an error before any counter was assigned (or a run
with zero reachable URLs) exits with code 3. -/
theorem C10_catch_and_verdict (inp : MainInput)
    (hc : ∀ lines, inp.config_lines = some lines → ∃ m, load_config lines = Except.ok m)
    (hp : ∀ d, inp.progress_doc = some d → d.issues ≠ none) :
    (∃ (maps : ConfigMaps) (inprog : List (String × Issue)),
      runMain inp = runVerdict inp maps inprog) ∧
    runMain inp ≠ RunResult.crashed ∧
    (∃ c : Counters,
      runMain inp = RunResult.exited (exitCode c.fail_count c.warn_count c.pass_count)) ∧
    (stepsOf inp.outcome = 0 → runMain inp = RunResult.exited 3) := by
  have hrun : ∃ (maps : ConfigMaps) (inprog : List (String × Issue)),
      runMain inp = runVerdict inp maps inprog := by
    cases hcl : inp.config_lines with
    | none =>
      cases hpd : inp.progress_doc with
      | none => exact ⟨emptyMaps, [], by simp [runMain, hcl, hpd]⟩
      | some d =>
        cases hd : d.issues with
        | none => exact absurd hd (hp d hpd)
        | some issues =>
          exact ⟨emptyMaps, load_progress issues, by simp [runMain, hcl, hpd, hd]⟩
    | some lines =>
      obtain ⟨m, hm⟩ := hc lines hcl
      cases hpd : inp.progress_doc with
      | none => exact ⟨m, [], by simp [runMain, hcl, hm, hpd]⟩
      | some d =>
        cases hd : d.issues with
        | none => exact absurd hd (hp d hpd)
        | some issues =>
          exact ⟨m, load_progress issues, by simp [runMain, hcl, hm, hpd, hd]⟩
  obtain ⟨maps, inprog, heq⟩ := hrun
  refine ⟨⟨maps, inprog, heq⟩, ?_, ?_, ?_⟩
  · rw [heq]
    exact fun h => RunResult.noConfusion h
  · exact ⟨_, heq.trans rfl⟩
  · intro h0
    rw [heq]
    simp only [runVerdict, scanCounters, h0]
    by_cases hnu : inp.num_urls = 0
    · rw [if_pos hnu]; rfl
    · rw [if_neg hnu]; rfl

theorem C10_catch_and_verdict_witness :
    runMain ⟨none, none, [("10020", "XFO")], [], 0, false, true, 1,
        TryOutcome.raised false 0⟩ = RunResult.exited 3 :=
  (C10_catch_and_verdict ⟨none, none, [("10020", "XFO")], [], 0, false, true, 1,
      TryOutcome.raised false 0⟩
    (fun _ h => nomatch h) (fun _ h => nomatch h)).2.2.2 rfl

end ZapBaseline
